import Mathlib

/-!
Verification of the dyne authentication core: the stateless backends
(`Backend`, `BasicAuth`, `DigestAuth`, `TokenAuth`, `MultiAuth` in
`dyne/ext/auth/__init__.py`) and the session `LoginManager`
(`dyne/ext/auth/session/__init__.py`).  Python functions are embedded as
executable Lean definitions; machine-level collaborators (hashlib's MD5) are
implemented in full, external collaborators (itsdangerous' TimestampSigner)
are abstracted by their documented contract.
-/

set_option maxRecDepth 8000

namespace Dyne

/-! ## Python string and byte primitives -/

/-- ASCII whitespace recognized by Python str.split with separator None. -/
def isPyWs (c : Char) : Bool :=
  c == ' ' || c == '\t' || c == '\n' || c == '\r' || c == '\x0b' || c == '\x0c'

/-- Python str.split(None, 1): skip leading whitespace, take the first
whitespace-free token, skip the whitespace run after it; the remainder
(verbatim, possibly with internal or trailing whitespace) is the second list
element when nonempty.  An empty or all-whitespace string yields []. -/
def pySplitWs1 (s : String) : List String :=
  let cs := s.data.dropWhile isPyWs
  if cs.isEmpty then []
  else
    let tok := cs.takeWhile (fun c => !(isPyWs c))
    let rest := (cs.dropWhile (fun c => !(isPyWs c))).dropWhile isPyWs
    if rest.isEmpty then [String.mk tok] else [String.mk tok, String.mk rest]

/-- The recursion behind `pySplitOn`, over character lists with the remaining
length as structural fuel (one step always consumes at least one character). -/
def splitOnGo (sep : List Char) : Nat → List Char → List Char → List (List Char)
  | 0, cur, l => [cur.reverse ++ l]
  | _ + 1, cur, [] => [cur.reverse]
  | fuel + 1, cur, c :: cs =>
    if sep.isPrefixOf (c :: cs) then
      cur.reverse :: splitOnGo sep fuel [] ((c :: cs).drop sep.length)
    else splitOnGo sep fuel (c :: cur) cs

/-- Python str.split(sep) for a nonempty separator: split at every
non-overlapping occurrence, left to right, keeping empty pieces. -/
def pySplitOn (s sep : String) : List String :=
  (splitOnGo sep.data (s.data.length + 1) [] s.data).map String.mk

/-- Python str.upper() (over the ASCII range the auth core feeds it). -/
def pyUpper (s : String) : String := String.mk (s.data.map Char.toUpper)

/-- Python str.startswith. -/
def pyStartsWith (s pre : String) : Bool := pre.data.isPrefixOf s.data

/-- Python str.strip(): remove leading and trailing whitespace. -/
def pyStrip (s : String) : String :=
  String.mk (((s.data.dropWhile isPyWs).reverse.dropWhile isPyWs).reverse)

/-- Python str.strip(c) for a single character: remove leading and trailing
occurrences of that character. -/
def pyStripChar (ch : Char) (s : String) : String :=
  String.mk (((s.data.dropWhile (· == ch)).reverse.dropWhile (· == ch)).reverse)

/-- UTF-8 encoding of one character, as Python's str.encode("utf-8") produces
for one code point. -/
def utf8Bytes (c : Char) : List Nat :=
  let n := c.toNat
  if n < 128 then [n]
  else if n < 2048 then [192 + n / 64, 128 + n % 64]
  else if n < 65536 then [224 + n / 4096, 128 + n / 64 % 64, 128 + n % 64]
  else [240 + n / 262144, 128 + n / 4096 % 64, 128 + n / 64 % 64, 128 + n % 64]

/-- UTF-8 bytes of a string (Python str.encode("utf-8")). -/
def strBytes (s : String) : List Nat :=
  s.data.flatMap utf8Bytes

/-- Python truthiness of an optional string: None and the empty string are
falsy. -/
def pyTruthyStr : Option String → Bool
  | none => false
  | some s => s ≠ ""

/-- Python f-string rendering of a value that is either a string or None. -/
def pyStrOpt : Option String → String
  | none => "None"
  | some s => s

/-- First-match lookup in an association list, as a Python dict.get for dicts
built without key collisions (collisions are handled by `dictGet`). -/
def assocGet (l : List (String × String)) (k : String) : Option String :=
  (l.find? (fun p => p.1 == k)).map (·.2)

/-- Assignment into a Python dict rendered as an association list: replace the
value at the first (unique) occurrence of the key, else append the binding. -/
def assocSet (l : List (String × String)) (k v : String) : List (String × String) :=
  match l with
  | [] => [(k, v)]
  | (k0, v0) :: tl => if k0 == k then (k0, v) :: tl else (k0, v0) :: assocSet tl k v

/-- Lookup in a dict built by successive assignments recorded in order: the
last assignment to a key wins. -/
def dictGet (l : List (String × String)) (k : String) : Option String :=
  (l.reverse.find? (fun p => p.1 == k)).map (·.2)

/-! ## MD5 (hashlib.md5, used by DigestAuth)

Implemented over byte lists with words as Nat reduced mod 2^32. -/

def mask32 : Nat := 4294967295

/-- Addition modulo 2^32. -/
def add32 (a b : Nat) : Nat := (a + b) % 4294967296

/-- Bitwise complement on 32-bit words. -/
def not32 (x : Nat) : Nat := Nat.xor x mask32

/-- Left rotation of a 32-bit word. -/
def rotl32 (x s : Nat) : Nat :=
  Nat.lor ((x <<< s) % 4294967296) (x >>> (32 - s))

/-- The MD5 sine-derived constant table. -/
def md5K : List Nat :=
  [3614090360, 3905402710, 606105819, 3250441966, 4118548399, 1200080426,
   2821735955, 4249261313, 1770035416, 2336552879, 4294925233, 2304563134,
   1804603682, 4254626195, 2792965006, 1236535329, 4129170786, 3225465664,
   643717713, 3921069994, 3593408605, 38016083, 3634488961, 3889429448,
   568446438, 3275163606, 4107603335, 1163531501, 2850285829, 4243563512,
   1735328473, 2368359562, 4294588738, 2272392833, 1839030562, 4259657740,
   2763975236, 1272893353, 4139469664, 3200236656, 681279174, 3936430074,
   3572445317, 76029189, 3654602809, 3873151461, 530742520, 3299628645,
   4096336452, 1126891415, 2878612391, 4237533241, 1700485571, 2399980690,
   4293915773, 2240044497, 1873313359, 4264355552, 2734768916, 1309151649,
   4149444226, 3174756917, 718787259, 3951481745]

/-- The MD5 per-round left-rotation amounts. -/
def md5S : List Nat :=
  [7, 12, 17, 22, 7, 12, 17, 22, 7, 12, 17, 22, 7, 12, 17, 22,
   5, 9, 14, 20, 5, 9, 14, 20, 5, 9, 14, 20, 5, 9, 14, 20,
   4, 11, 16, 23, 4, 11, 16, 23, 4, 11, 16, 23, 4, 11, 16, 23,
   6, 10, 15, 21, 6, 10, 15, 21, 6, 10, 15, 21, 6, 10, 15, 21]

def md5F (b c d : Nat) : Nat := Nat.lor (Nat.land b c) (Nat.land (not32 b) d)

def md5G (b c d : Nat) : Nat := Nat.lor (Nat.land d b) (Nat.land (not32 d) c)

def md5H (b c d : Nat) : Nat := Nat.xor b (Nat.xor c d)

def md5I (b c d : Nat) : Nat := Nat.xor c (Nat.lor b (not32 d))

structure MD5State where
  a : Nat
  b : Nat
  c : Nat
  d : Nat
  deriving DecidableEq, Repr

def md5InitState : MD5State := ⟨1732584193, 4023233417, 2562383102, 271733878⟩

/-- One of the 64 MD5 operations, on the block's 16 words `x`. -/
def md5Round (x : List Nat) (st : MD5State) (i : Nat) : MD5State :=
  let fg : Nat × Nat :=
    if i < 16 then (md5F st.b st.c st.d, i)
    else if i < 32 then (md5G st.b st.c st.d, (5 * i + 1) % 16)
    else if i < 48 then (md5H st.b st.c st.d, (3 * i + 5) % 16)
    else (md5I st.b st.c st.d, (7 * i) % 16)
  let tmp := (st.a + fg.1 + md5K.getD i 0 + x.getD fg.2 0) % 4294967296
  ⟨st.d, add32 st.b (rotl32 tmp (md5S.getD i 0)), st.b, st.c⟩

/-- Little-endian 32-bit word from four bytes. -/
def leWord (b0 b1 b2 b3 : Nat) : Nat :=
  b0 + 256 * b1 + 65536 * b2 + 16777216 * b3

/-- The sixteen little-endian words of a 64-byte block. -/
def blockWords : List Nat → List Nat
  | b0 :: b1 :: b2 :: b3 :: rest => leWord b0 b1 b2 b3 :: blockWords rest
  | _ => []

/-- MD5 compression of one 64-byte block. -/
def md5Block (st : MD5State) (block : List Nat) : MD5State :=
  let x := blockWords block
  let e := (List.range 64).foldl (md5Round x) st
  ⟨add32 st.a e.a, add32 st.b e.b, add32 st.c e.c, add32 st.d e.d⟩

/-- MD5 padding: append 0x80, zero bytes up to 56 mod 64, then the bit length
as eight little-endian bytes. -/
def md5Pad (msg : List Nat) : List Nat :=
  let withOne := msg ++ [128]
  let zeros := (64 - withOne.length % 64 + 56) % 64
  let bitLen := 8 * msg.length
  withOne ++ List.replicate zeros 0 ++ (List.range 8).map (fun i => bitLen / 256 ^ i % 256)

/-- MD5 of a byte list: pad, then fold the compression over the blocks. -/
def md5Bytes (msg : List Nat) : MD5State :=
  let padded := md5Pad msg
  (List.range (padded.length / 64)).foldl
    (fun st i => md5Block st ((padded.drop (64 * i)).take 64)) md5InitState

def hexChars : List Char := "0123456789abcdef".data

def hexDigit (n : Nat) : Char := hexChars.getD n '0'

def byteHexChars (b : Nat) : List Char := [hexDigit (b / 16), hexDigit (b % 16)]

/-- Four little-endian bytes of a 32-bit word. -/
def word4Bytes (w : Nat) : List Nat :=
  [w % 256, w / 256 % 256, w / 65536 % 256, w / 16777216 % 256]

/-- The sixteen digest bytes of a final MD5 state. -/
def md5DigestBytes (st : MD5State) : List Nat :=
  word4Bytes st.a ++ word4Bytes st.b ++ word4Bytes st.c ++ word4Bytes st.d

def bytesHexChars (bs : List Nat) : List Char := bs.flatMap byteHexChars

/-- hashlib.md5(s.encode("utf-8")).hexdigest(). -/
def md5hex (s : String) : String :=
  String.mk (bytesHexChars (md5DigestBytes (md5Bytes (strBytes s))))

example : md5hex "" = "d41d8cd98f00b204e9800998ecf8427e" := by decide

example : md5hex "abc" = "900150983cd24fb0d6963f7d28e17f72" := by decide

example : md5hex "The quick brown fox jumps over the lazy dog" =
    "9e107d9d372bb6826bd81d3542a419d6" := by decide

/-! ## Exceptions -/

/-- The Python exceptions the auth core raises or catches.  AuthenticationError
is starlette's and carries the message from the source; the rest are builtins
whose interpreter-generated messages are not tracked. -/
inductive PyExc where
  | authenticationError (msg : String)
  | valueError
  | typeError
  | assertionError
  deriving DecidableEq, Repr

instance {ε α : Type} [DecidableEq ε] [DecidableEq α] : DecidableEq (Except ε α)
  | .error a, .error b =>
    match decEq a b with
    | .isTrue h => .isTrue (congrArg Except.error h)
    | .isFalse h => .isFalse (fun hc => h (Except.error.inj hc))
  | .error _, .ok _ => .isFalse (fun hc => Except.noConfusion hc)
  | .ok _, .error _ => .isFalse (fun hc => Except.noConfusion hc)
  | .ok a, .ok b =>
    match decEq a b with
    | .isTrue h => .isTrue (congrArg Except.ok h)
    | .isFalse h => .isFalse (fun hc => h (Except.ok.inj hc))

/-! ## Backend.get_credentials and DigestAuth (dyne/ext/auth/__init__.py) -/

/-- Backend.get_credentials: fail when the configured header is absent, when
the header value does not split into a scheme token plus a credential, or when
the scheme token differs from the backend's scheme (case-sensitively). -/
def getCredentials (scheme : String) (headerName : String)
    (headers : List (String × String)) : Except PyExc String :=
  match assocGet headers headerName with
  | none => .error (.authenticationError "No Authorization headers")
  | some auth =>
    match pySplitWs1 auth with
    | [sch, credentials] =>
      if sch ≠ scheme then .error (.authenticationError "Incorrect Authorization scheme")
      else .ok credentials
    | _ => .error (.authenticationError "Bad Authorization headers")

/-- The parsing loop of DigestAuth._parse_credentials: each ", "-separated part
must split on "=" into exactly a key and a value (the interpreter raises
ValueError at the first part yielding fewer or more than two pieces); keys are
whitespace-stripped and values stripped of surrounding quote characters.
Assignments are returned in iteration order. -/
def parseCredsParts : List String → Except PyExc (List (String × String))
  | [] => .ok []
  | part :: rest =>
    match pySplitOn part "=" with
    | [key, value] =>
      match parseCredsParts rest with
      | .ok tl => .ok ((pyStrip key, pyStripChar '"' value) :: tl)
      | .error e => .error e
    | _ => .error .valueError

/-- DigestAuth._parse_credentials: split the credential string on ", " and
collect the key=value assignments (reads use `dictGet`, so a repeated key takes
its last assignment, as in a Python dict). -/
def parseCredentials (credentials : String) : Except PyExc (List (String × String)) :=
  parseCredsParts (pySplitOn credentials ", ")

/-- DigestAuth configuration after __init__: realm, whether stored passwords
are precomputed HA1 values, the parsed qop list, and the algorithm. -/
structure DigestCfg where
  realm : String
  use_ha1_pw : Bool
  qop : List String
  algorithm : String
  deriving DecidableEq, Repr

/-- The qop validity test in DigestAuth.authenticate: `qop and qop not in
self.qop` (a missing or empty qop is falsy and skips the check). -/
def qopBad (qop : Option String) (allowed : List String) : Bool :=
  match qop with
  | some q => q != "" && !(allowed.contains q)
  | none => false

/-- Whether every character of the string is ASCII. -/
def isAsciiStr (s : String) : Bool := s.data.all (fun c => c.toNat < 128)

/-- hmac.compare_digest on two str arguments: it raises TypeError when either
string contains a non-ASCII character, and otherwise returns (in constant
time, which has no functional content) whether the strings are equal. -/
def compareDigest (a b : String) : Except PyExc Bool :=
  if isAsciiStr a && isAsciiStr b then .ok (a == b) else .error .typeError

/-- The body of DigestAuth.authenticate from _parse_credentials onward.  The
get_password, verifyNonce and verifyOpaque callbacks are abstract parameters
(the verify callbacks already applied to the request); `method` is
request.method.  Python renders a None password, cnonce or nc as the string
"None" inside the f-string joins; the final comparison goes through
`compareDigest`, so a non-ASCII client response raises TypeError rather than
AuthenticationError. -/
def digestAuthenticateCreds (cfg : DigestCfg)
    (get_password : String → Option String)
    (verifyNonce verifyOpaque : Option String → Bool)
    (method : String) (credentials : String) : Except PyExc String :=
  match parseCredentials credentials with
  | .error e => .error e
  | .ok auth =>
  let username := dictGet auth "username"
  let nonce := dictGet auth "nonce"
  let uri := dictGet auth "uri"
  let response := dictGet auth "response"
  let opaqueV := dictGet auth "opaque"
  let qop := dictGet auth "qop"
  let cnonce := dictGet auth "cnonce"
  let nc := dictGet auth "nc"
  match username, nonce, uri, response with
  | some username, some nonce, some uri, some response =>
    if username == "" || nonce == "" || uri == "" || response == "" then
      .error (.authenticationError "Invalid Authorization parameters")
    else if !(verifyNonce (some nonce)) || !(verifyOpaque opaqueV) then
      .error (.authenticationError "Invalid opaque")
    else if qopBad qop cfg.qop then
      .error (.authenticationError "Invalid qop")
    else
      let password := get_password username
      let ha1 :=
        if cfg.use_ha1_pw then pyStrOpt password
        else md5hex (username ++ ":" ++ cfg.realm ++ ":" ++ pyStrOpt password)
      let ha1 :=
        if cfg.algorithm == "MD5-Sess" then
          md5hex (ha1 ++ ":" ++ nonce ++ ":" ++ pyStrOpt cnonce)
        else ha1
      let ha2 := md5hex (pyUpper method ++ ":" ++ uri)
      let a3 :=
        if qop == some "auth" then
          ha1 ++ ":" ++ nonce ++ ":" ++ pyStrOpt nc ++ ":" ++ pyStrOpt cnonce ++ ":"
            ++ pyStrOpt qop ++ ":" ++ ha2
        else ha1 ++ ":" ++ nonce ++ ":" ++ ha2
      let expected_response := md5hex a3
      match compareDigest expected_response response with
      | .error e => .error e
      | .ok eq =>
        if eq then .ok username
        else .error (.authenticationError "Invalid response")
  | _, _, _, _ => .error (.authenticationError "Invalid Authorization parameters")

/-- DigestAuth.authenticate: get_credentials for scheme "Digest" on the
default "Authorization" header, then the digest verification body. -/
def digestAuthenticate (cfg : DigestCfg)
    (get_password : String → Option String)
    (verifyNonce verifyOpaque : Option String → Bool)
    (method : String) (headers : List (String × String)) : Except PyExc String :=
  match getCredentials "Digest" "Authorization" headers with
  | .error e => .error e
  | .ok credentials =>
    digestAuthenticateCreds cfg get_password verifyNonce verifyOpaque method credentials

/-- The expected digest exactly as claim C1 words it: HA1 from
username:realm:password (or the stored password when use_ha1_pw), re-hashed
with nonce and cnonce for MD5-Sess; HA2 from the uppercased method and uri;
final digest over HA1:nonce:nc:cnonce:qop:HA2 when the client qop is "auth"
and HA1:nonce:HA2 otherwise. -/
def claimDigest (cfg : DigestCfg) (password : Option String)
    (username nonce : String) (cnonce nc qop : Option String)
    (method uri : String) : String :=
  let ha1 :=
    if cfg.use_ha1_pw then pyStrOpt password
    else md5hex (username ++ ":" ++ cfg.realm ++ ":" ++ pyStrOpt password)
  let ha1 :=
    if cfg.algorithm == "MD5-Sess" then md5hex (ha1 ++ ":" ++ nonce ++ ":" ++ pyStrOpt cnonce)
    else ha1
  let ha2 := md5hex (pyUpper method ++ ":" ++ uri)
  md5hex (if qop == some "auth" then
            ha1 ++ ":" ++ nonce ++ ":" ++ pyStrOpt nc ++ ":" ++ pyStrOpt cnonce ++ ":"
              ++ "auth" ++ ":" ++ ha2
          else ha1 ++ ":" ++ nonce ++ ":" ++ ha2)

/-! ## Role authorization (Backend.authorize and LoginManager._authorize) -/

/-- A value returned by a registered get_user_roles callback: None, a string,
a list, a tuple, or a set of role strings. -/
inductive PyRoles where
  | none
  | str (s : String)
  | list (l : List String)
  | tuple (l : List String)
  | set (l : List String)
  deriving DecidableEq, Repr

/-- One item of a role-specification list: a scalar role or a nested
list/tuple forming an AND-group. -/
inductive RoleItem where
  | str (s : String)
  | group (l : List String)
  deriving DecidableEq, Repr

/-- A role specification: None, a scalar role, or a list/tuple of items. -/
inductive RoleSpec where
  | none
  | str (s : String)
  | list (items : List RoleItem)
  deriving DecidableEq, Repr

/-- Backend.authorize's normalized user_roles value.  In the None branch the
source assigns `user_roles = {}`, which in Python is an empty dict, not an
empty set. -/
inductive BackendRoles where
  | emptyDict
  | roleSet (l : List String)
  deriving DecidableEq, Repr

/-- Backend.authorize's normalization of the callback value.  None keeps the
empty dict; a string (not a list/tuple) is wrapped in a singleton set; lists
and tuples become sets; a set return reaches `{user_roles}` and raises
TypeError because sets are unhashable. -/
def backendNormRoles : PyRoles → Except PyExc BackendRoles
  | .none => .ok .emptyDict
  | .str s => .ok (.roleSet [s])
  | .list l => .ok (.roleSet l)
  | .tuple l => .ok (.roleSet l)
  | .set _ => .error .typeError

/-- Python `r in user_roles` over the normalized value (membership in an empty
dict is False). -/
def backendMem (r : String) : BackendRoles → Bool
  | .emptyDict => false
  | .roleSet l => l.contains r

/-- Python `set(group) & user_roles == set(group)`: a subset test against a
set, and a TypeError against the empty dict (set & dict is unsupported). -/
def backendSubset (g : List String) : BackendRoles → Except PyExc Bool
  | .emptyDict => .error .typeError
  | .roleSet l => .ok (g.all l.contains)

/-- The role loop of Backend.authorize: the first satisfied item returns True;
falling off the loop returns None, modeled as false. -/
def backendAuthLoop (ur : BackendRoles) : List RoleItem → Except PyExc Bool
  | [] => .ok false
  | .str r :: rest => if backendMem r ur then .ok true else backendAuthLoop ur rest
  | .group g :: rest =>
    match backendSubset g ur with
    | .error e => .error e
    | .ok b => if b then .ok true else backendAuthLoop ur rest

/-- Backend.authorize with the get_user_roles callback value supplied (the
callback is assumed registered; an unset callback raises ValueError before any
of this runs). -/
def backendAuthorize (role : RoleSpec) (user_roles : PyRoles) : Except PyExc Bool :=
  match role with
  | .none => .ok true
  | .str s =>
    match backendNormRoles user_roles with
    | .error e => .error e
    | .ok ur => backendAuthLoop ur [.str s]
  | .list items =>
    match backendNormRoles user_roles with
    | .error e => .error e
    | .ok ur => backendAuthLoop ur items

/-- LoginManager._authorize's normalization of the callback value into a set
of provided roles (membership list). -/
def managerNormRoles : PyRoles → List String
  | .none => []
  | .str s => [s]
  | .list l => l
  | .tuple l => l
  | .set l => l

/-- LoginManager._authorize's normalization of the required roles into
OR-groups of AND-sets. -/
def managerGroups : RoleSpec → List (List String)
  | .none => []
  | .str s => [[s]]
  | .list items => items.map (fun it => match it with | .str s => [s] | .group g => g)

/-- LoginManager._authorize with the get_user_roles callback value supplied:
OR over groups, AND (subset) within a group. -/
def managerAuthorize (role : RoleSpec) (user_roles : PyRoles) : Bool :=
  match role with
  | .none => true
  | _ => (managerGroups role).any (fun g => g.all ((managerNormRoles user_roles).contains))

/-! ## Backend.login_required and MultiAuth -/

/-- Outcome of one run of a Backend.login_required-decorated view: the wrapped
error-handler coroutine was invoked with the given status and its result
returned, the view ran with request state user set just before, or an uncaught
exception escaped the wrapper. -/
inductive RunResult (U : Type) where
  | handler (status : Nat)
  | view (stateUser : Option U)
  | raised (e : PyExc)
  deriving DecidableEq, Repr

/-- The wrapper produced by Backend.login_required, as a function of the
outcome of authenticate(request), the outcome of authorize for the configured
role, and the optional flag (None defaulting to false).  Only
AuthenticationError is caught around authenticate. -/
def loginRequired {U : Type} (authResult : Except PyExc (Option U))
    (authorize : U → Except PyExc Bool) (optional : Bool) : RunResult U :=
  let user : Except PyExc (Option U) :=
    match authResult with
    | .error (.authenticationError _) => .ok none
    | r => r
  match user with
  | .error e => .raised e
  | .ok none => .handler 401
  | .ok (some u) =>
    match authorize u with
    | .error e => .raised e
    | .ok authOk =>
      if !optional && !authOk then .handler 403
      else .view (some u)

/-- Configuration of one backend as MultiAuth reads it. -/
structure BackendCfg where
  scheme : String
  header : String
  deriving DecidableEq, Repr

/-- MultiAuth.is_compatible: the request's value of the backend's header must
split (whitespace, maxsplit 1) into a scheme token plus a nonempty remainder —
unpacking fewer than two parts raises ValueError, returning False — and the
token must equal the backend's scheme. -/
def is_compatible (headers : List (String × String)) (backend : BackendCfg) : Bool :=
  match pySplitWs1 ((assocGet headers backend.header).getD "") with
  | [sch, _] => sch == backend.scheme
  | _ => false

/-- MultiAuth.__init__: assert that at least one backend is given. -/
def mkMultiAuth (backends : List BackendCfg) : Except PyExc (List BackendCfg) :=
  if backends.isEmpty then .error .assertionError else .ok backends

/-- Backend selection in MultiAuth.login_required's wrapper: the first
compatible backend in list order, defaulting to the first backend; the
selected backend's own login_required then handles the request. -/
def selectBackend (backends : List BackendCfg) (headers : List (String × String)) :
    Option BackendCfg :=
  match backends with
  | [] => none
  | b0 :: _ => some ((backends.find? (fun b => is_compatible headers b)).getD b0)

/-- The compatibility test exactly as claim C4 words it: the header value,
split on whitespace, has a first token equal to the backend's scheme. -/
def claimCompatible (headers : List (String × String)) (backend : BackendCfg) : Bool :=
  match pySplitWs1 ((assocGet headers backend.header).getD "") with
  | sch :: _ => sch == backend.scheme
  | [] => false

/-- Backend selection as claim C4 words it: first claim-compatible backend,
else the first backend. -/
def claimSelect (backends : List BackendCfg) (headers : List (String × String)) :
    Option BackendCfg :=
  match backends with
  | [] => none
  | b0 :: _ => some ((backends.find? (fun b => claimCompatible headers b)).getD b0)

/-- The compatibility test as amended for C4: the header value splits into at
least two whitespace-separated parts and the first equals the backend's
scheme. -/
def amendedCompatible (headers : List (String × String)) (backend : BackendCfg) : Bool :=
  let parts := pySplitWs1 ((assocGet headers backend.header).getD "")
  2 ≤ parts.length && parts.headD "" == backend.scheme

/-- Backend selection as amended for C4. -/
def amendedSelect (backends : List BackendCfg) (headers : List (String × String)) :
    Option BackendCfg :=
  match backends with
  | [] => none
  | b0 :: _ => some ((backends.find? (fun b => amendedCompatible headers b)).getD b0)

/-! ## Request and Response abstractions

The Request/Response classes live in dyne/models.py, which is not among the
sources; the slices the auth core touches are modelled from spec section 6. -/

/-- A cookie recorded by Response.set_cookie. -/
structure CookieSet where
  name : String
  value : String
  path : String
  max_age : Option Nat
  httponly : Bool
  samesite : String
  secure : Bool
  deriving DecidableEq, Repr

/-- Modelled from the spec: dyne.models.Response (not under src).  Spec
section 6 describes a mutable status code, text body setters, a header map,
cookie setters, and a redirect operation that sets a Location header and a
status. -/
structure Response where
  status_code : Nat
  text : String
  headers : List (String × String)
  cookies : List CookieSet
  deriving DecidableEq, Repr

/-- Modelled from the spec: Response.redirect sets the Location header and the
given status code. -/
def Response.redirect (r : Response) (url : String) (status : Nat) : Response :=
  { r with status_code := status, headers := assocSet r.headers "Location" url }

/-- Modelled from the spec: Response.set_cookie records a cookie with the
given attributes. -/
def Response.set_cookie (r : Response) (c : CookieSet) : Response :=
  { r with cookies := r.cookies ++ [c] }

/-- Modelled from the spec: the slice of dyne.models.Request (not under src)
that the LoginManager reads — URL path, netloc and scheme, query params,
cookies, the session mapping when the session middleware installed one, and
request-scoped state.user. -/
structure Req (U : Type) where
  path : String
  netloc : String
  scheme : String
  params : List (String × String)
  cookies : List (String × String)
  session : Option (List (String × String))
  stateUser : Option U
  deriving DecidableEq, Repr

/-! ## Session LoginManager (dyne/ext/auth/session/__init__.py) -/

/-- The reserved session key LoginManager.USER_ID_KEY. -/
def USER_ID_KEY : String := "_user_id"

/-- A valid URL scheme for urllib.parse: a letter followed by letters, digits,
'+', '-' or '.'. -/
def validScheme (cs : List Char) : Bool :=
  match cs with
  | [] => false
  | c :: rest => c.isAlpha && rest.all (fun d => d.isAlphanum || d == '+' || d == '-' || d == '.')

/-- Drop a leading "scheme:" when the part before the first colon is a valid
scheme (urllib.parse.urlparse's scheme handling). -/
def stripUrlScheme (s : String) : String :=
  let pre := s.data.takeWhile (fun c => c != ':')
  if pre.length < s.data.length ∧ validScheme pre then String.mk (s.data.drop (pre.length + 1))
  else s

/-- urllib.parse.urlparse(target).netloc: nonempty only when, after an
optional scheme, the string starts with "//"; it then extends to the next '/',
'?' or '#'. -/
def urlNetloc (s : String) : String :=
  let rest := stripUrlScheme s
  if pyStartsWith rest "//" then
    String.mk ((rest.data.drop 2).takeWhile (fun c => c != '/' && c != '?' && c != '#'))
  else ""

/-- LoginManager._is_safe_url: nonempty, not scheme-relative, and either no
netloc or the request's own host. -/
def is_safe_url (target : String) (host : String) : Bool :=
  if target == "" then false
  else if pyStartsWith target "//" then false
  else
    let netloc := urlNetloc target
    netloc == "" || netloc == host

/-- Bytes urllib.parse.quote leaves unescaped with the default safe="/":
ASCII letters, digits, '_', '.', '-', '~' and '/'. -/
def quoteSafeByte (b : Nat) : Bool :=
  (65 ≤ b && b ≤ 90) || (97 ≤ b && b ≤ 122) || (48 ≤ b && b ≤ 57) ||
  b == 95 || b == 46 || b == 45 || b == 126 || b == 47

def hexDigitUpper (n : Nat) : Char := "0123456789ABCDEF".data.getD n '0'

/-- urllib.parse.quote with the default safe characters, over the UTF-8 bytes
of the string. -/
def pyQuote (s : String) : String :=
  String.mk ((strBytes s).flatMap (fun b =>
    if quoteSafeByte b then [Char.ofNat b]
    else ['%', hexDigitUpper (b / 16), hexDigitUpper (b % 16)]))

/-- Python `a or b` over optional strings, with the empty string falsy. -/
def pyOrStr (a b : Option String) : Option String :=
  match a with
  | some s => if s == "" then b else some s
  | none => b

/-- LoginManager._apply_redirect: take next_url, else the request's next query
param; keep it only when truthy and safe for the request's host, else the
default; then redirect with status 302 (HTTPStatus.FOUND). -/
def apply_redirect {U : Type} (req : Req U) (resp : Response) (default_url : String)
    (next_url : Option String) : Response :=
  let target0 := pyOrStr next_url (assocGet req.params "next")
  let target :=
    match target0 with
    | none => default_url
    | some t => if t == "" || !(is_safe_url t req.netloc) then default_url else t
  resp.redirect target 302

/-- The AuthFailureReason enum. -/
inductive AuthFailureReason where
  | UNAUTHENTICATED
  | UNAUTHORIZED
  deriving DecidableEq, Repr

/-- LoginManager.default_failure.  login_url is the configured login URL (None
when not configured; the empty string is equally falsy).  Returns the request
(whose params the source mutates with the next value) and the response. -/
def default_failure {U : Type} (login_url : Option String) (req : Req U)
    (resp : Response) (reason : AuthFailureReason) : Req U × Response :=
  match reason with
  | .UNAUTHENTICATED =>
    if pyTruthyStr login_url then
      let lu := login_url.getD ""
      let safe_next := pyQuote req.path
      let req' := { req with params := assocSet req.params "next" safe_next }
      let sep := if lu.data.contains '?' then "&" else "?"
      let next_url := lu ++ sep ++ "next=" ++ safe_next
      (req', apply_redirect req' resp lu (some next_url))
    else
      (req, { resp with status_code := 401, text := "Authentication required" })
  | .UNAUTHORIZED =>
    (req, { resp with status_code := 403,
                      text := "You do not have permission to access this resource" })

/-- LoginManager._unsign_cookie, with TimestampSigner(str(secret_key),
salt=name).unsign(·, max_age=remember_me_duration) followed by utf-8 decoding
abstracted as `unsign` (itsdangerous is an external collaborator; BadSignature
and its SignatureExpired subclass are the error case). -/
def unsign_cookie (unsign : String → Except Unit String)
    (cookies : List (String × String)) (name : String) : Option String :=
  match assocGet cookies name with
  | none => none
  | some value =>
    match unsign value with
    | .ok v => some v
    | .error _ => none

/-- LoginManager._load_current_user.  `user_loader` is the registered callback
(None when unset); a raising loader is its Except error case.  Returns the
resolved principal, the updated request, and whether the loader was invoked. -/
def load_current_user {U : Type} (user_loader : Option (String → Except PyExc (Option U)))
    (unsign : String → Except Unit String) (cookieName : String)
    (req : Req U) : Option U × Req U × Bool :=
  match req.stateUser with
  | some u => (some u, req, false)
  | none =>
    match user_loader with
    | none => (none, req, false)
    | some loader =>
      let uid0 : Option String :=
        match req.session with
        | some sess => assocGet sess USER_ID_KEY
        | none => none
      let uid1 := if pyTruthyStr uid0 then uid0 else unsign_cookie unsign req.cookies cookieName
      if pyTruthyStr uid1 then
        let uid := uid1.getD ""
        let user : Option U :=
          match loader uid with
          | .ok u => u
          | .error _ => none
        match user with
        | some u =>
          (some u,
           { req with session := req.session.map (fun s => assocSet s USER_ID_KEY uid),
                      stateUser := some u }, true)
        | none => (none, req, true)
      else (none, req, false)

/-- A Python value stored under a user-id attribute or key.  A stored None is
indistinguishable from a missing entry through getattr(·,·,None)/.get, so both
are modeled as a missing lookup. -/
inductive PyVal where
  | str (s : String)
  | int (n : Int)
  deriving DecidableEq, Repr

/-- Python truthiness of such a value. -/
def pyTruthy : PyVal → Bool
  | .str s => s != ""
  | .int n => n != 0

/-- Python str() of such a value. -/
def pyStr : PyVal → String
  | .str s => s
  | .int n => toString n

/-- A principal passed to LoginManager.login: an object with attributes, or a
plain dict. -/
inductive PyUser where
  | obj (attrs : List (String × PyVal))
  | dict (entries : List (String × PyVal))
  deriving DecidableEq, Repr

def attrsGet (l : List (String × PyVal)) (k : String) : Option PyVal :=
  (l.find? (fun p => p.1 == k)).map (·.2)

/-- getattr(user, attr, None): plain dict instances do not expose their keys
as attributes. -/
def pyGetattr : PyUser → String → Option PyVal
  | .obj attrs, a => attrsGet attrs a
  | .dict _, _ => none

/-- The user-id resolution in LoginManager.login:
`getattr(user, attr, None) or (user.get(attr) if isinstance(user, dict) else
None)` — a falsy attribute value falls through to the dict branch. -/
def loginResolveId (attr : String) (user : PyUser) : Option PyVal :=
  let lhs := pyGetattr user attr
  let rhs : Option PyVal :=
    match user with
    | .dict entries => attrsGet entries attr
    | .obj _ => none
  match lhs with
  | some v => if pyTruthy v then some v else rhs
  | none => rhs

/-- The user-id resolution as amended for C9: for object users the attribute
value counts only when truthy; dict users fall back to the mapping key; the
resolved id is None exactly when both fail. -/
def amendedResolveId (attr : String) (user : PyUser) : Option PyVal :=
  match user with
  | .obj attrs =>
    match attrsGet attrs attr with
    | some v => if pyTruthy v then some v else none
    | none => none
  | .dict entries => attrsGet entries attr

/-- LoginManager.login: resolve the user id (TypeError when it is None), write
str(id) into the session under USER_ID_KEY, stamp request state, optionally
set the signed remember-me cookie, run the on_login hooks in registration
order (represented by identifiers returned in execution order), and redirect.
`sign` abstracts TimestampSigner(str(secret_key), salt=cookie_name).sign on
utf-8 bytes; accessing req.session without the session middleware fails. -/
def login (user_id_attribute cookieName : String) (duration : Nat)
    (sign : String → String) (hooks : List Nat)
    (req : Req PyUser) (resp : Response) (user : PyUser)
    (remember_me : Bool) (redirect_url : String) :
    Except PyExc (Req PyUser × Response × List Nat) :=
  match loginResolveId user_id_attribute user with
  | none => .error .typeError
  | some v =>
    let user_id := pyStr v
    match req.session with
    | none => .error .assertionError
    | some sess =>
      let req' := { req with session := some (assocSet sess USER_ID_KEY user_id),
                             stateUser := some user }
      let resp' :=
        if remember_me then
          resp.set_cookie ⟨cookieName, sign user_id, "/", some duration, true, "lax",
                           req'.scheme == "https"⟩
        else resp
      let resp'' := apply_redirect req' resp' redirect_url none
      .ok (req', resp'', hooks)

/-- The wrapper Backend.error_handler installs around a user-supplied handler
(modeled as its effect on the response): run the handler, force 401 when the
status was left at 200, and add the WWW-Authenticate challenge computed from
the backend's auth_header when the header is absent. -/
def errorHandlerWrap (handler : Response → Response) (authHeaderVal : String)
    (resp : Response) : Response :=
  let r := handler resp
  let r' := if r.status_code == 200 then { r with status_code := 401 } else r
  if (assocGet r'.headers "WWW-Authenticate").isSome then r'
  else { r' with headers := assocSet r'.headers "WWW-Authenticate" authHeaderVal }

/-- The redirect target claim C6 describes: the login URL joined with '&'
when it already contains a '?' and '?' otherwise, plus next=<quoted path>. -/
def loginNextUrl (lu path : String) : String :=
  lu ++ (if lu.data.contains '?' then "&" else "?") ++ "next=" ++ pyQuote path

/-- A toy signing scheme witnessing the abstract signer contract: the
signature appends a fixed tag to the message. -/
def toySign (m : String) : String := m ++ "#sig"

/-- Unsigning for the toy scheme: strip the tag, failing on anything else. -/
def toyUnsign (v : String) : Except Unit String :=
  if "#sig".data.reverse.isPrefixOf v.data.reverse then .ok (String.mk (v.data.take (v.data.length - 4)))
  else .error ()

/-! ## Helper lemmas -/

theorem hexDigit_mem (n : Nat) : hexDigit n ∈ hexChars := by
  by_cases h : n < 16
  · interval_cases n <;> decide
  · have hlen : hexChars.length ≤ n := by
      have h16 : hexChars.length = 16 := by decide
      omega
    rw [hexDigit, List.getD_eq_default _ _ hlen]
    decide

theorem bytesHexChars_sub (bs : List Nat) : ∀ c ∈ bytesHexChars bs, c ∈ hexChars := by
  intro c hc
  simp only [bytesHexChars, List.mem_flatMap] at hc
  obtain ⟨b, _, hb⟩ := hc
  simp only [byteHexChars, List.mem_cons, List.mem_singleton] at hb
  rcases hb with h | h | h
  · subst h; exact hexDigit_mem _
  · subst h; exact hexDigit_mem _
  · exact absurd h (List.not_mem_nil c)

theorem bytesHexChars_length (bs : List Nat) : (bytesHexChars bs).length = 2 * bs.length := by
  induction bs with
  | nil => rfl
  | cons b tl ih =>
    simp only [bytesHexChars, List.flatMap_cons, List.length_append, List.length_cons,
      byteHexChars, List.length_nil] at ih ⊢
    omega

/-- Every MD5 hex digest has exactly 32 characters. -/
theorem md5hex_length (s : String) : (md5hex s).length = 32 := by
  show (bytesHexChars (md5DigestBytes (md5Bytes (strBytes s)))).length = 32
  rw [bytesHexChars_length]
  simp [md5DigestBytes, word4Bytes]

/-- Every character of an MD5 hex digest is a lowercase hex digit. -/
theorem md5hex_chars (s : String) (c : Char) (hc : c ∈ (md5hex s).data) : c ∈ hexChars :=
  bytesHexChars_sub _ c hc

theorem hexChars_ascii : hexChars.all (fun c => c.toNat < 128) = true := by decide

/-- An MD5 hex digest is ASCII-only, so the computed digest never trips
hmac.compare_digest's non-ASCII TypeError by itself. -/
theorem md5hex_ascii (s : String) : isAsciiStr (md5hex s) = true := by
  unfold isAsciiStr
  rw [List.all_eq_true]
  intro c hc
  exact List.all_eq_true.mp hexChars_ascii c (md5hex_chars s c hc)

theorem claimDigest_length (cfg : DigestCfg) (password : Option String)
    (username nonce : String) (cnonce nc qop : Option String) (method uri : String) :
    (claimDigest cfg password username nonce cnonce nc qop method uri).length = 32 :=
  md5hex_length _

theorem claimDigest_chars (cfg : DigestCfg) (password : Option String)
    (username nonce : String) (cnonce nc qop : Option String) (method uri : String) :
    ∀ c ∈ (claimDigest cfg password username nonce cnonce nc qop method uri).data,
      c ∈ hexChars :=
  fun c hc => md5hex_chars _ c hc

/-! ## C1 -/

/-- C1 (amended): DigestAuth.authenticate computes the expected digest as the
claim states — HA1 = MD5(username:realm:password) unless use_ha1_pw (stored
password used as HA1), re-hashed as MD5(HA1:nonce:cnonce) for MD5-Sess; HA2 =
MD5(uppercased-method:uri); final response MD5(HA1:nonce:nc:cnonce:qop:HA2)
when the client qop equals "auth" and MD5(HA1:nonce:HA2) otherwise, over UTF-8
colon-joined strings — and compares it to the client response with
hmac.compare_digest.  When the client response is ASCII-only (the computed
digest always is), any mismatch raises AuthenticationError("Invalid
response"); a client response containing non-ASCII characters instead makes
compare_digest raise TypeError.  The digest is a lowercase 32-character hex
string. -/
theorem C1_digest_response (cfg : DigestCfg) (get_password : String → Option String)
    (verifyNonce verifyOpaque : Option String → Bool) (method : String)
    (headers : List (String × String)) (creds : String) (auth : List (String × String))
    (username nonce uri response : String)
    (hcred : getCredentials "Digest" "Authorization" headers = .ok creds)
    (hparse : parseCredentials creds = .ok auth)
    (hu : dictGet auth "username" = some username) (hu0 : username ≠ "")
    (hn : dictGet auth "nonce" = some nonce) (hn0 : nonce ≠ "")
    (hri : dictGet auth "uri" = some uri) (hri0 : uri ≠ "")
    (hrp : dictGet auth "response" = some response) (hrp0 : response ≠ "")
    (hvn : verifyNonce (some nonce) = true)
    (hvo : verifyOpaque (dictGet auth "opaque") = true)
    (hq : qopBad (dictGet auth "qop") cfg.qop = false) :
    (isAsciiStr response = true →
      digestAuthenticate cfg get_password verifyNonce verifyOpaque method headers =
        (if claimDigest cfg (get_password username) username nonce (dictGet auth "cnonce")
              (dictGet auth "nc") (dictGet auth "qop") method uri == response
          then .ok username
          else .error (.authenticationError "Invalid response"))) ∧
    (isAsciiStr response = false →
      digestAuthenticate cfg get_password verifyNonce verifyOpaque method headers =
        .error .typeError) ∧
    (claimDigest cfg (get_password username) username nonce (dictGet auth "cnonce")
        (dictGet auth "nc") (dictGet auth "qop") method uri).length = 32 ∧
    ∀ c ∈ (claimDigest cfg (get_password username) username nonce (dictGet auth "cnonce")
        (dictGet auth "nc") (dictGet auth "qop") method uri).data, c ∈ hexChars := by
  have hbu : (username == "") = false := beq_eq_false_iff_ne.mpr hu0
  have hbn : (nonce == "") = false := beq_eq_false_iff_ne.mpr hn0
  have hbi : (uri == "") = false := beq_eq_false_iff_ne.mpr hri0
  have hbp : (response == "") = false := beq_eq_false_iff_ne.mpr hrp0
  refine ⟨?_, ?_, claimDigest_length _ _ _ _ _ _ _ _ _, claimDigest_chars _ _ _ _ _ _ _ _ _⟩
  · intro hresp
    unfold digestAuthenticate digestAuthenticateCreds
    simp only [hcred, hparse, hu, hn, hri, hrp, hbu, hbn, hbi, hbp, hvn, hvo, hq,
      Bool.or_self, Bool.not_true, Bool.or_false, Bool.false_or, if_false, ite_false]
    simp only [compareDigest, md5hex_ascii, hresp, Bool.and_self, if_true]
    unfold claimDigest
    by_cases hqa : dictGet auth "qop" = some "auth"
    · rw [hqa]; simp [pyStrOpt]
    · have hb : (dictGet auth "qop" == some "auth") = false := beq_eq_false_iff_ne.mpr hqa
      simp [hb]
  · intro hresp
    unfold digestAuthenticate digestAuthenticateCreds
    simp only [hcred, hparse, hu, hn, hri, hrp, hbu, hbn, hbi, hbp, hvn, hvo, hq,
      Bool.or_self, Bool.not_true, Bool.or_false, Bool.false_or, if_false, ite_false]
    simp only [compareDigest, md5hex_ascii, hresp, Bool.and_false, if_false, ite_false]
    simp

/-- Witness for C1: a concrete digest request (realm "Authentication
Required", user john, password password, nonce abc, method GET, uri /, no
qop) authenticates with the matching MD5 response. -/
theorem C1_witness :
    digestAuthenticate ⟨"Authentication Required", false, ["auth"], "MD5"⟩
        (fun u => if u == "john" then some "password" else none)
        (fun _ => true) (fun _ => true) "GET"
        [("Authorization",
          "Digest username=\"john\", nonce=\"abc\", uri=\"/\", response=\"d131775387dcb370060fb76a5c5fe1be\"")] =
      .ok "john" := by
  have h := C1_digest_response ⟨"Authentication Required", false, ["auth"], "MD5"⟩
    (fun u => if u == "john" then some "password" else none)
    (fun _ => true) (fun _ => true) "GET"
    [("Authorization",
      "Digest username=\"john\", nonce=\"abc\", uri=\"/\", response=\"d131775387dcb370060fb76a5c5fe1be\"")]
    "username=\"john\", nonce=\"abc\", uri=\"/\", response=\"d131775387dcb370060fb76a5c5fe1be\""
    [("username", "john"), ("nonce", "abc"), ("uri", "/"),
     ("response", "d131775387dcb370060fb76a5c5fe1be")]
    "john" "abc" "/" "d131775387dcb370060fb76a5c5fe1be"
    (by decide) (by decide) (by decide) (by decide) (by decide) (by decide)
    (by decide) (by decide) (by decide) (by decide) (by decide) (by decide) (by decide)
  exact (h.1 (by decide)).trans (by decide)

/-- Counterexample for C1 as originally stated: a digest request whose client
response is the non-ASCII string "ñ" (reachable, since header values are
latin-1 decoded) passes every parameter and nonce/opaque check and is a
mismatch against the computed digest, yet authenticate raises TypeError from
hmac.compare_digest rather than AuthenticationError("Invalid response"). -/
theorem C1_counterexample :
    digestAuthenticate ⟨"Authentication Required", false, ["auth"], "MD5"⟩
        (fun u => if u == "john" then some "password" else none)
        (fun _ => true) (fun _ => true) "GET"
        [("Authorization",
          "Digest username=\"john\", nonce=\"abc\", uri=\"/\", response=\"ñ\"")]
      = .error .typeError ∧
    claimDigest ⟨"Authentication Required", false, ["auth"], "MD5"⟩ (some "password")
        "john" "abc" none none none "GET" "/" ≠ "ñ" ∧
    PyExc.typeError ≠ PyExc.authenticationError "Invalid response" := by decide

/-! ## C2 -/

/-- C2: with get_user_roles returning None and the role specification
[["admin"]], Backend.authorize raises TypeError — `user_roles = {}` builds an
empty dict, not an empty set, and `set & dict` is unsupported — instead of
returning falsy as the claim states; the independently implemented
LoginManager._authorize normalizes None with set() and returns False as
claimed. -/
theorem C2_backend_none_roles_type_error :
    backendAuthorize (.list [.group ["admin"]]) .none = .error .typeError ∧
    managerAuthorize (.list [.group ["admin"]]) .none = false := by decide

/-! ## C3 -/

/-- C3: in the Backend.login_required wrapper, an AuthenticationError from
authenticate is caught and treated as absence of a user, never propagated;
with no user the error handler runs with status 401 and the view never runs,
regardless of optional; a present user failing authorization yields the
handler with 403 when optional is unset, while optional=true still calls the
view; and every path that reaches the view has stored the resolved principal
as request state user. -/
theorem C3_login_required_paths (U : Type) (authorize : U → Except PyExc Bool) :
    (∀ msg optional,
      loginRequired (U := U) (.error (.authenticationError msg)) authorize optional
        = .handler 401) ∧
    (∀ optional, loginRequired (U := U) (.ok none) authorize optional = .handler 401) ∧
    (∀ u, authorize u = .ok false →
      loginRequired (.ok (some u)) authorize false = .handler 403) ∧
    (∀ u, authorize u = .ok false →
      loginRequired (.ok (some u)) authorize true = .view (some u)) ∧
    (∀ u optional, authorize u = .ok true →
      loginRequired (.ok (some u)) authorize optional = .view (some u)) ∧
    (∀ authResult optional su, loginRequired authResult authorize optional = .view su →
      ∃ u, su = some u ∧ authResult = .ok (some u)) := by
  refine ⟨fun msg optional => rfl, fun optional => rfl, ?_, ?_, ?_, ?_⟩
  · intro u h; simp [loginRequired, h]
  · intro u h; simp [loginRequired, h]
  · intro u optional h; simp [loginRequired, h]
  · intro authResult optional su h
    cases authResult with
    | error e => cases e <;> simp [loginRequired] at h
    | ok v =>
      cases v with
      | none => simp [loginRequired] at h
      | some u =>
        simp only [loginRequired] at h
        cases ha : authorize u with
        | error e => rw [ha] at h; simp at h
        | ok b =>
          rw [ha] at h
          by_cases hob : (!optional && !b) = true
          · simp [hob] at h
          · simp [hob] at h
            exact ⟨u, h.symm, rfl⟩

/-- Witness for C3: a failing authorization with optional=true still reaches
the view with the principal in state, and an AuthenticationError becomes the
401 handler path. -/
theorem C3_witness :
    loginRequired (U := String) (.ok (some "alice")) (fun _ => .ok false) true
      = .view (some "alice") ∧
    loginRequired (U := String) (.error (.authenticationError "bad")) (fun _ => .ok false)
      false = .handler 401 := by
  have h := C3_login_required_paths String (fun _ => .ok false)
  exact ⟨h.2.2.2.1 "alice" rfl, h.1 "bad" false⟩

/-! ## C4 -/

/-- Counterexample for C4: with backends [Basic, Bearer] and the header value
"Bearer" (a scheme token with no credential), the code's selection falls back
to the Basic backend — is_compatible needs two whitespace-separated parts —
while the claim's reading of compatibility (first whitespace token equals the
scheme) selects the Bearer backend. -/
theorem C4_counterexample :
    selectBackend [⟨"Basic", "Authorization"⟩, ⟨"Bearer", "Authorization"⟩]
        [("Authorization", "Bearer")] = some ⟨"Basic", "Authorization"⟩ ∧
    claimSelect [⟨"Basic", "Authorization"⟩, ⟨"Bearer", "Authorization"⟩]
        [("Authorization", "Bearer")] = some ⟨"Bearer", "Authorization"⟩ := by decide

theorem pySplitWs1_length_le (s : String) : (pySplitWs1 s).length ≤ 2 := by
  unfold pySplitWs1
  dsimp only
  split
  · simp
  · split <;> simp

theorem is_compatible_eq_amended (headers : List (String × String)) (backend : BackendCfg) :
    is_compatible headers backend = amendedCompatible headers backend := by
  unfold is_compatible amendedCompatible
  have hle := pySplitWs1_length_le ((assocGet headers backend.header).getD "")
  cases hps : pySplitWs1 ((assocGet headers backend.header).getD "") with
  | nil => simp
  | cons a l2 =>
    cases l2 with
    | nil => simp
    | cons b l3 =>
      cases l3 with
      | nil => simp
      | cons c l4 => rw [hps] at hle; simp at hle

/-- C4 (amended): MultiAuth construction fails exactly on an empty backend
list; per request the selected backend is the first in list order whose header
value splits into at least two whitespace-separated parts with the first token
equal (case-sensitively) to that backend's scheme, falling back to the first
backend when none is compatible. -/
theorem C4_amended_selection :
    mkMultiAuth ([] : List BackendCfg) = .error .assertionError ∧
    (∀ b0 rest, mkMultiAuth (b0 :: rest) = .ok (b0 :: rest)) ∧
    (∀ headers backend, is_compatible headers backend = amendedCompatible headers backend) ∧
    (∀ backends headers, selectBackend backends headers = amendedSelect backends headers) := by
  refine ⟨rfl, fun b0 rest => rfl, is_compatible_eq_amended, ?_⟩
  intro backends headers
  unfold selectBackend amendedSelect
  cases backends with
  | nil => rfl
  | cons b0 rest =>
    rw [show (fun b => is_compatible headers b) = (fun b => amendedCompatible headers b)
      from funext (fun b => is_compatible_eq_amended headers b)]

/-! ## C5 -/

/-- C5: with remember_me=True, login sets the remember-me cookie to exactly
the signer's signature of the resolved user id (sign abstracts
TimestampSigner(str(secret_key), salt=remember_me_cookie_name).sign over UTF-8
bytes); _unsign_cookie returns the original id when unsigning succeeds within
the max-age window, and returns None — never raising — for an absent cookie or
an expired or tampered signature (BadSignature covers both). -/
theorem C5_remember_me_round_trip (sign : String → String)
    (unsign : String → Except Unit String) (name : String) :
    (∀ attr duration hooks (req : Req PyUser) resp user v ru sess,
      loginResolveId attr user = some v → req.session = some sess →
      (login attr name duration sign hooks req resp user true ru).map
          (fun r => r.2.1.cookies)
        = .ok (resp.cookies ++
            [⟨name, sign (pyStr v), "/", some duration, true, "lax",
              req.scheme == "https"⟩])) ∧
    (∀ cookies uid, assocGet cookies name = some (sign uid) → unsign (sign uid) = .ok uid →
      unsign_cookie unsign cookies name = some uid) ∧
    (∀ cookies, assocGet cookies name = none → unsign_cookie unsign cookies name = none) ∧
    (∀ cookies v, assocGet cookies name = some v → unsign v = .error () →
      unsign_cookie unsign cookies name = none) := by
  refine ⟨?_, ?_, ?_, ?_⟩
  · intro attr duration hooks req resp user v ru sess hid hsess
    simp [login, hid, hsess, apply_redirect, Response.redirect, Response.set_cookie,
      Except.map]
  · intro cookies uid hc hu
    simp [unsign_cookie, hc, hu]
  · intro cookies hc
    simp [unsign_cookie, hc]
  · intro cookies v hc hu
    simp [unsign_cookie, hc, hu]

/-- Witness for C5 with the toy signer: the cookie set for user id 42 is the
signed id, unsigning it returns "42", and an absent or tampered cookie yields
None. -/
theorem C5_witness :
    (login "id" "remember_me" 2592000 toySign []
        ⟨"/login", "h", "https", [], [], some [], none⟩ ⟨200, "", [], []⟩
        (.dict [("id", .int 42)]) true "/").map (fun r => r.2.1.cookies)
      = .ok [⟨"remember_me", toySign "42", "/", some 2592000, true, "lax", true⟩] ∧
    unsign_cookie toyUnsign [("remember_me", toySign "42")] "remember_me" = some "42" ∧
    unsign_cookie toyUnsign [] "remember_me" = none ∧
    unsign_cookie toyUnsign [("remember_me", "tampered")] "remember_me" = none := by
  have h := C5_remember_me_round_trip toySign toyUnsign "remember_me"
  refine ⟨?_, ?_, ?_, ?_⟩
  · have hb := h.1 "id" 2592000 [] ⟨"/login", "h", "https", [], [], some [], none⟩
      ⟨200, "", [], []⟩ (.dict [("id", .int 42)]) (.int 42) "/" [] (by decide) rfl
    exact hb.trans (by decide)
  · exact h.2.1 [("remember_me", toySign "42")] "42" (by decide) (by decide)
  · exact h.2.2.1 [] rfl
  · exact h.2.2.2 [("remember_me", "tampered")] "tampered" rfl (by decide)

/-! ## C6 -/

/-- Counterexample for C6: with login_url "//evil.example/login" (scheme
relative, hence unsafe) and request path /profile, default_failure redirects
to the bare login URL, not to the claim's login URL with the next parameter
attached. -/
theorem C6_counterexample :
    assocGet ((default_failure (U := Unit) (some "//evil.example/login")
        ⟨"/profile", "example.com", "http", [], [], some [], none⟩
        ⟨200, "", [], []⟩ .UNAUTHENTICATED).2.headers) "Location"
      = some "//evil.example/login" ∧
    ("//evil.example/login" ++ "?" ++ "next=" ++ pyQuote "/profile")
      ≠ "//evil.example/login" := by decide

/-- C6 (amended): for UNAUTHENTICATED with a configured (truthy) login URL,
default_failure 302-redirects to login_url joined with '&' when the login URL
already contains a '?' and '?' otherwise, plus next=<url-quoted path>,
provided that URL passes the safe-URL check against the request host;
otherwise the 302 redirect goes to the bare login URL.  With no login URL it
returns a bare 401 with a generic message, and for UNAUTHORIZED a bare 403
with a generic message. -/
theorem loginNextUrl_fold (lu path : String) :
    lu ++ (if lu.data.contains '?' then "&" else "?") ++ "next=" ++ pyQuote path
      = loginNextUrl lu path := rfl

theorem loginNextUrl_ne_empty (lu path : String) : loginNextUrl lu path ≠ "" := by
  intro hcon
  have hlen := congrArg String.length hcon
  have hsep : (if lu.data.contains '?' then "&" else "?").length = 1 := by
    split <;> rfl
  have h5 : ("next=").length = 5 := rfl
  have h0 : ("").length = 0 := rfl
  rw [loginNextUrl] at hlen
  simp only [String.length_append, hsep, h5, h0] at hlen
  omega

theorem C6_amended (U : Type) (req : Req U) (resp : Response) :
    (∀ lu, lu ≠ "" →
      (default_failure (some lu) req resp .UNAUTHENTICATED).2 =
        (if is_safe_url (loginNextUrl lu req.path) req.netloc then
          resp.redirect (loginNextUrl lu req.path) 302
        else resp.redirect lu 302)) ∧
    ((default_failure (U := U) none req resp .UNAUTHENTICATED).2
      = { resp with status_code := 401, text := "Authentication required" }) ∧
    (∀ lurl, (default_failure (U := U) lurl req resp .UNAUTHORIZED).2
      = { resp with status_code := 403,
                    text := "You do not have permission to access this resource" }) := by
  refine ⟨?_, rfl, fun lurl => rfl⟩
  intro lu hlu
  have ht : pyTruthyStr (some lu) = true := by simp [pyTruthyStr, hlu]
  have hne := loginNextUrl_ne_empty lu req.path
  have hb : (loginNextUrl lu req.path == "") = false := beq_eq_false_iff_ne.mpr hne
  unfold default_failure
  rw [if_pos ht]
  dsimp only [Option.getD]
  rw [loginNextUrl_fold]
  unfold apply_redirect pyOrStr
  simp only [hb, Bool.false_or]
  by_cases hsafe : is_safe_url (loginNextUrl lu req.path) req.netloc
  · simp [hsafe, hne]
  · simp [hsafe, hne]

/-- Witness for C6: an unauthenticated GET of /profile with login_url /login
redirects with status 302 to /login?next=/profile. -/
theorem C6_witness :
    assocGet ((default_failure (U := Unit) (some "/login")
        ⟨"/profile", "example.com", "http", [], [], some [], none⟩
        ⟨200, "", [], []⟩ .UNAUTHENTICATED).2.headers) "Location"
      = some "/login?next=/profile" ∧
    (default_failure (U := Unit) (some "/login")
        ⟨"/profile", "example.com", "http", [], [], some [], none⟩
        ⟨200, "", [], []⟩ .UNAUTHENTICATED).2.status_code = 302 := by
  have h := (C6_amended Unit ⟨"/profile", "example.com", "http", [], [], some [], none⟩
    ⟨200, "", [], []⟩).1 "/login" (by decide)
  rw [h]
  exact ⟨by decide, by decide⟩

/-! ## C7 -/

theorem load_current_user_state (U : Type)
    (user_loader : Option (String → Except PyExc (Option U)))
    (unsign : String → Except Unit String) (cookieName : String)
    (req : Req U) (u : U) (req' : Req U) (c : Bool)
    (h : load_current_user user_loader unsign cookieName req = (some u, req', c)) :
    req'.stateUser = some u := by
  unfold load_current_user at h
  cases hs : req.stateUser with
  | some u0 =>
    rw [hs] at h
    simp only [Prod.mk.injEq, Option.some.injEq] at h
    obtain ⟨h1, h2, h3⟩ := h
    rw [← h2, hs, h1]
  | none =>
    rw [hs] at h
    cases user_loader with
    | none => exact Option.noConfusion (Prod.mk.inj h).1
    | some loader =>
      dsimp only at h
      split at h <;>
        (try split at h) <;>
        (try split at h) <;>
        first
          | (simp only [Prod.mk.injEq, Option.some.injEq] at h
             obtain ⟨h1, h2, h3⟩ := h
             rw [← h2]
             simp [h1])
          | exact Option.noConfusion (Prod.mk.inj h).1

theorem load_current_user_cached (U : Type)
    (user_loader : Option (String → Except PyExc (Option U)))
    (unsign : String → Except Unit String) (cookieName : String)
    (req : Req U) (u : U) (h : req.stateUser = some u) :
    load_current_user user_loader unsign cookieName req = (some u, req, false) := by
  unfold load_current_user
  rw [h]

/-- C7: _load_current_user is idempotent within a request — once a principal
has been resolved, a second call returns the identical cached principal from
request state without invoking user_loader again; on successful resolution the
session is re-populated with the resolved id under the reserved key; and a
raising user_loader is swallowed, yielding None rather than an error. -/
theorem C7_load_idempotent (U : Type)
    (user_loader : Option (String → Except PyExc (Option U)))
    (unsign : String → Except Unit String) (cookieName : String) :
    (∀ (req : Req U) u req' c,
      load_current_user user_loader unsign cookieName req = (some u, req', c) →
      load_current_user user_loader unsign cookieName req' = (some u, req', false)) ∧
    (∀ (loader : String → Except PyExc (Option U)) (req : Req U) sess uid u,
      user_loader = some loader → req.stateUser = none → req.session = some sess →
      assocGet sess USER_ID_KEY = some uid → uid ≠ "" → loader uid = .ok (some u) →
      load_current_user user_loader unsign cookieName req =
        (some u, { req with session := some (assocSet sess USER_ID_KEY uid),
                            stateUser := some u }, true)) ∧
    (∀ (loader : String → Except PyExc (Option U)) (req : Req U) sess uid e,
      user_loader = some loader → req.stateUser = none → req.session = some sess →
      assocGet sess USER_ID_KEY = some uid → uid ≠ "" → loader uid = .error e →
      load_current_user user_loader unsign cookieName req = (none, req, true)) := by
  refine ⟨?_, ?_, ?_⟩
  · intro req u req' c h
    exact load_current_user_cached U user_loader unsign cookieName req' u
      (load_current_user_state U user_loader unsign cookieName req u req' c h)
  · intro loader req sess uid u hl hs hsess hget huid hload
    have ht : pyTruthyStr (some uid) = true := by simp [pyTruthyStr, huid]
    unfold load_current_user
    simp only [hs, hl, hsess, hget, ht, if_true, Option.getD, hload, Option.map]
  · intro loader req sess uid e hl hs hsess hget huid hload
    have ht : pyTruthyStr (some uid) = true := by simp [pyTruthyStr, huid]
    unfold load_current_user
    simp only [hs, hl, hsess, hget, ht, if_true, Option.getD, hload]

/-- Witness for C7: a session holding user id 1 with a loader returning
"alice" resolves and caches the principal, and the second call returns the
cached principal without state change and without invoking the loader. -/
theorem C7_witness :
    load_current_user (some (fun _ => .ok (some "alice"))) toyUnsign "remember_me"
        ⟨"/", "h", "http", [], [], some [("_user_id", "1")], none⟩
      = (some "alice",
         ⟨"/", "h", "http", [], [], some [("_user_id", "1")], some "alice"⟩, true) ∧
    load_current_user (some (fun _ => .ok (some "alice"))) toyUnsign "remember_me"
        ⟨"/", "h", "http", [], [], some [("_user_id", "1")], some "alice"⟩
      = (some "alice",
         ⟨"/", "h", "http", [], [], some [("_user_id", "1")], some "alice"⟩, false) := by
  have h := C7_load_idempotent String (some (fun _ => .ok (some "alice"))) toyUnsign
    "remember_me"
  have hb := h.2.1 (fun _ => .ok (some "alice"))
    ⟨"/", "h", "http", [], [], some [("_user_id", "1")], none⟩
    [("_user_id", "1")] "1" "alice" rfl rfl rfl (by decide) (by decide) rfl
  have hb' : load_current_user (some (fun _ => .ok (some "alice"))) toyUnsign "remember_me"
      ⟨"/", "h", "http", [], [], some [("_user_id", "1")], none⟩
      = (some "alice",
         ⟨"/", "h", "http", [], [], some [("_user_id", "1")], some "alice"⟩, true) := hb
  exact ⟨hb', h.1 ⟨"/", "h", "http", [], [], some [("_user_id", "1")], none⟩ "alice"
    ⟨"/", "h", "http", [], [], some [("_user_id", "1")], some "alice"⟩ true hb'⟩

/-! ## C8 -/

theorem assocGet_assocSet_self (l : List (String × String)) (k v : String) :
    assocGet (assocSet l k v) k = some v := by
  induction l with
  | nil => simp [assocSet, assocGet, List.find?]
  | cons p tl ih =>
    obtain ⟨k0, v0⟩ := p
    by_cases hk : (k0 == k) = true
    · simp [assocSet, hk, assocGet, List.find?]
    · simp only [assocSet, hk, if_false, Bool.false_eq_true]
      simp only [assocGet, List.find?, hk] at ih ⊢
      exact ih

/-- C8: the wrapper installed by Backend.error_handler forces the status to
401 exactly when the user handler left it at 200, sets WWW-Authenticate to the
backend's auth_header value iff no WWW-Authenticate header is present after
the handler ran, and returns the response. -/
theorem C8_error_handler_wrap (handler : Response → Response) (authHeaderVal : String)
    (resp : Response) :
    (errorHandlerWrap handler authHeaderVal resp).status_code =
      (if (handler resp).status_code == 200 then 401 else (handler resp).status_code) ∧
    ((assocGet (handler resp).headers "WWW-Authenticate").isSome = false →
      assocGet (errorHandlerWrap handler authHeaderVal resp).headers "WWW-Authenticate"
        = some authHeaderVal) ∧
    ((assocGet (handler resp).headers "WWW-Authenticate").isSome = true →
      (errorHandlerWrap handler authHeaderVal resp).headers = (handler resp).headers) := by
  refine ⟨?_, ?_, ?_⟩
  · by_cases hw : (assocGet (handler resp).headers "WWW-Authenticate").isSome <;>
      by_cases hstat : ((handler resp).status_code == 200) = true <;>
        simp [errorHandlerWrap, hw, hstat]
  · intro hw
    by_cases hstat : ((handler resp).status_code == 200) = true <;>
      simp [errorHandlerWrap, hw, hstat, assocGet_assocSet_self]
  · intro hw
    by_cases hstat : ((handler resp).status_code == 200) = true <;>
      simp [errorHandlerWrap, hw, hstat]

/-- Witness for C8: a handler that sets nothing yields a 401 with the
backend's challenge header. -/
theorem C8_witness :
    (errorHandlerWrap (fun r => r) "Basic realm=\"x\"" ⟨200, "", [], []⟩).status_code
      = 401 ∧
    assocGet (errorHandlerWrap (fun r => r) "Basic realm=\"x\"" ⟨200, "", [], []⟩).headers
      "WWW-Authenticate" = some "Basic realm=\"x\"" := by
  have h := C8_error_handler_wrap (fun r => r) "Basic realm=\"x\"" ⟨200, "", [], []⟩
  exact ⟨h.1.trans (by decide), h.2.1 (by decide)⟩

/-! ## C9 -/

theorem loginResolveId_eq_amended (attr : String) (user : PyUser) :
    loginResolveId attr user = amendedResolveId attr user := by
  cases user with
  | obj attrs =>
    unfold loginResolveId amendedResolveId pyGetattr
    cases attrsGet attrs attr with
    | none => rfl
    | some v => dsimp only
  | dict entries => rfl

theorem login_ok (attr cookieName : String) (duration : Nat) (sign : String → String)
    (hooks : List Nat) (req : Req PyUser) (resp : Response) (user : PyUser)
    (remember_me : Bool) (redirect_url : String) (v : PyVal) (sess : List (String × String))
    (hr : loginResolveId attr user = some v) (hsess : req.session = some sess) :
    login attr cookieName duration sign hooks req resp user remember_me redirect_url
      = .ok ({ req with session := some (assocSet sess USER_ID_KEY (pyStr v)),
                        stateUser := some user },
             apply_redirect
               { req with session := some (assocSet sess USER_ID_KEY (pyStr v)),
                          stateUser := some user }
               (if remember_me then
                  resp.set_cookie ⟨cookieName, sign (pyStr v), "/", some duration, true,
                    "lax", req.scheme == "https"⟩
                else resp)
               redirect_url none,
             hooks) := by
  unfold login
  simp only [hr, hsess]

theorem login_type_error (attr cookieName : String) (duration : Nat)
    (sign : String → String) (hooks : List Nat) (req : Req PyUser) (resp : Response)
    (user : PyUser) (remember_me : Bool) (redirect_url : String)
    (hr : loginResolveId attr user = none) :
    login attr cookieName duration sign hooks req resp user remember_me redirect_url
      = .error .typeError := by
  unfold login
  simp only [hr]

/-- Counterexample for C9: a user object whose id attribute is present but
falsy (id = 0) makes login raise TypeError — `getattr(user, attr, None) or
...` discards the falsy attribute and the fallback is None for non-dict users
— although the claim says TypeError is raised exactly when the id is absent. -/
theorem C9_counterexample :
    pyGetattr (.obj [("id", .int 0)]) "id" = some (.int 0) ∧
    login "id" "remember_me" 2592000 toySign []
        ⟨"/", "h", "http", [], [], some [], none⟩ ⟨200, "", [], []⟩
        (.obj [("id", .int 0)]) false "/" = .error .typeError := by decide

/-- C9 (amended): login resolves the user id as the object attribute when it
is truthy, else the mapping key for dict users, and raises TypeError exactly
when that resolution yields None (so a present-but-falsy object attribute also
raises); when an id is resolved, login raises no TypeError and writes str(id)
into the session under the fixed reserved key "_user_id", sets request state
user to the user, and runs the registered on_login hooks in registration
order. -/
theorem C9_login (attr cookieName : String) (duration : Nat) (sign : String → String)
    (hooks : List Nat) (req : Req PyUser) (resp : Response) (user : PyUser)
    (remember_me : Bool) (redirect_url : String) (sess : List (String × String))
    (hsess : req.session = some sess) :
    (loginResolveId attr user = amendedResolveId attr user) ∧
    (login attr cookieName duration sign hooks req resp user remember_me redirect_url
        = .error .typeError ↔ amendedResolveId attr user = none) ∧
    (∀ v, amendedResolveId attr user = some v →
      ∃ resp',
        login attr cookieName duration sign hooks req resp user remember_me redirect_url
          = .ok ({ req with session := some (assocSet sess "_user_id" (pyStr v)),
                            stateUser := some user }, resp', hooks)) := by
  refine ⟨loginResolveId_eq_amended attr user, ?_, ?_⟩
  · cases hr : loginResolveId attr user with
    | none =>
      constructor
      · intro _
        rw [← loginResolveId_eq_amended, hr]
      · intro _
        exact login_type_error attr cookieName duration sign hooks req resp user
          remember_me redirect_url hr
    | some v =>
      constructor
      · intro hcon
        rw [login_ok attr cookieName duration sign hooks req resp user remember_me
          redirect_url v sess hr hsess] at hcon
        exact Except.noConfusion hcon
      · intro hcon
        rw [← loginResolveId_eq_amended, hr] at hcon
        exact Option.noConfusion hcon
  · intro v hv
    rw [← loginResolveId_eq_amended] at hv
    exact ⟨_, login_ok attr cookieName duration sign hooks req resp user remember_me
      redirect_url v sess hv hsess⟩

/-- Witness for C9: a dict user with id 7 logs in, the session gains
"_user_id" -> "7", state user is set, and the hooks list is preserved in
order. -/
theorem C9_witness :
    ∃ resp',
      login "id" "remember_me" 2592000 toySign [0, 1]
          ⟨"/", "h", "https", [], [], some [], none⟩ ⟨200, "", [], []⟩
          (.dict [("id", .int 7)]) true "/dashboard"
        = .ok (⟨"/", "h", "https", [], [], some [("_user_id", "7")],
                some (.dict [("id", .int 7)])⟩, resp', [0, 1]) := by
  have h := (C9_login "id" "remember_me" 2592000 toySign [0, 1]
    ⟨"/", "h", "https", [], [], some [], none⟩ ⟨200, "", [], []⟩
    (.dict [("id", .int 7)]) true "/dashboard" [] rfl).2.2 (.int 7) (by decide)
  exact h

/-! ## C10 -/

theorem parseCredsParts_bad (parts : List String)
    (h : parts.any (fun p => (pySplitOn p "=").length != 2) = true) :
    parseCredsParts parts = .error .valueError := by
  induction parts with
  | nil => simp at h
  | cons p rest ih =>
    simp only [List.any_cons, Bool.or_eq_true] at h
    unfold parseCredsParts
    rcases hsp : pySplitOn p "=" with _ | ⟨a, _ | ⟨b, _ | ⟨c2, tl⟩⟩⟩
    · simp [hsp]
    · simp [hsp]
    · rcases h with h | h
      · rw [hsp] at h
        simp at h
      · simp only [hsp, ih h]
    · simp [hsp]

/-- C10: a Digest credential string containing a ", "-separated part with no
'=' at all, or a part whose value itself contains an '=', makes
_parse_credentials raise ValueError rather than AuthenticationError;
authenticate propagates it, and because Backend.login_required catches only
AuthenticationError, the ValueError escapes the decorated view instead of
becoming the 401 error-handler response. -/
theorem C10_parse_value_error (cfg : DigestCfg) (get_password : String → Option String)
    (verifyNonce verifyOpaque : Option String → Bool) (method : String)
    (authorize : String → Except PyExc Bool) (optional : Bool) (creds : String)
    (hbad : (pySplitOn creds ", ").any (fun p => (pySplitOn p "=").length != 2) = true) :
    parseCredentials creds = .error .valueError ∧
    digestAuthenticateCreds cfg get_password verifyNonce verifyOpaque method creds
      = .error .valueError ∧
    loginRequired ((digestAuthenticateCreds cfg get_password verifyNonce verifyOpaque
        method creds).map some) authorize optional = .raised .valueError := by
  have hp : parseCredentials creds = .error .valueError := parseCredsParts_bad _ hbad
  have hd : digestAuthenticateCreds cfg get_password verifyNonce verifyOpaque method creds
      = .error .valueError := by
    unfold digestAuthenticateCreds
    simp only [hp]
  refine ⟨hp, hd, ?_⟩
  rw [hd]
  rfl

/-- Witness for C10: the credential part nc=MDAx= (a base64-padded value)
yields ValueError from parsing, and the wrapper re-raises it instead of
returning the 401 handler result. -/
theorem C10_witness :
    parseCredentials "username=\"john\", nc=MDAx=" = .error .valueError ∧
    loginRequired ((digestAuthenticateCreds ⟨"r", false, ["auth"], "MD5"⟩ (fun _ => none)
        (fun _ => true) (fun _ => true) "GET" "username=\"john\", nc=MDAx=").map some)
      (fun _ => .ok true) false = .raised .valueError := by
  have h := C10_parse_value_error ⟨"r", false, ["auth"], "MD5"⟩ (fun _ => none)
    (fun _ => true) (fun _ => true) "GET" (fun _ => .ok true) false
    "username=\"john\", nc=MDAx=" (by decide)
  exact ⟨h.1, h.2.2⟩

end Dyne
